import Mathlib

/-!
# kbacklight: brightness arithmetic and backlight device selection

A shallow embedding of `src/kbacklight.c`.

* C `int` is a 32-bit integer in the usual signed representation.  Values are
  carried as `Int` and every arithmetic result is reduced with `wrapInt`
  (signed overflow is modelled as wrap-around, the behaviour of the usual
  targets).
* C `/` on `int` truncates toward zero (`Int.tdiv`); a zero divisor, and
  `INT_MIN / -1`, trap, which is modelled by `none`.
* The command line is the list `argv[1..]`; `strtol` is modelled after the C
  library for a 64-bit `long`.
* The udev library is the environment: a scan is the list of entries that
  `udev_enumerate_get_list_entry` hands to the loop, each with the value of its
  `type` attribute (`none` when the lookup returns `NULL`).  Reference counting
  (`udev_device_unref`, `udev_enumerate_unref`) has no effect on the values
  computed and is left out.
* A run of `main` is its exit, the texts on standard output and standard
  error, and the list of udev calls it made.  Behaviour that C leaves
  undefined (a `NULL` string handed to `strcmp`, a store past the end of the
  buffer of `set_sysattr_int`) and a trapping division end the run as a fault.
-/

namespace Kbacklight

/-! ## C `int` arithmetic -/

/-- Smallest value of a C `int`. -/
def INT_MIN : Int := -2147483648

/-- Largest value of a C `int`. -/
def INT_MAX : Int := 2147483647

/-- Reduction of a mathematical integer to the 32-bit signed value
with the same low 32 bits. -/
def wrapInt (x : Int) : Int := (x + 2147483648) % 4294967296 - 2147483648

/-- C `a * b` on `int`. -/
def c_mul (a b : Int) : Int := wrapInt (a * b)

/-- C `a + b` on `int`. -/
def c_add (a b : Int) : Int := wrapInt (a + b)

/-- C `a - b` on `int`. -/
def c_sub (a b : Int) : Int := wrapInt (a - b)

/-- C `a / b` on `int`: truncation toward zero; `none` where the division
traps (zero divisor, or `INT_MIN / -1`). -/
def c_div (a b : Int) : Option Int :=
  if b = 0 then none
  else if a = INT_MIN ∧ b = -1 then none
  else some (Int.tdiv a b)

/-- C `a / 100` on `int`: the divisor is the non-zero constant 100, so the
division never traps and the quotient is again an `int`. -/
def c_div100 (a : Int) : Int := Int.tdiv a 100

/-! ## Argument handling of `main` (lines 108-127) -/

/-- Smallest value of a C `long` (64 bits). -/
def LONG_MIN : Int := -9223372036854775808

/-- Largest value of a C `long` (64 bits). -/
def LONG_MAX : Int := 9223372036854775807

/-- The C library predicate `isspace` in the C locale. -/
def isspace (c : Char) : Bool :=
  c = ' ' || c = '\t' || c = '\n' || c = '\x0b' || c = '\x0c' || c = '\r'

/-- The C library predicate `isdigit`. -/
def isdigit (c : Char) : Bool := '0' ≤ c && c ≤ '9'

/-- The number denoted by a string of decimal digits. -/
def digits_value (ds : List Char) : Nat :=
  ds.foldl (fun acc c => 10 * acc + (c.toNat - '0'.toNat)) 0

/-- The C library call `strtol(s, NULL, 10)`: leading white space is skipped,
an optional sign is read, then the longest run of decimal digits (none gives
0); a value outside the range of `long` is replaced by `LONG_MIN` or
`LONG_MAX`. -/
def strtol (s : List Char) : Int :=
  let s1 := s.dropWhile isspace
  let (negative, s2) :=
    match s1 with
    | '-' :: r => (true, r)
    | '+' :: r => (false, r)
    | _ => (false, s1)
  let n : Int := digits_value (s2.takeWhile isdigit)
  if negative then max LONG_MIN (-n) else min LONG_MAX n

/-- What the argument handling of `main` decides: the flags `get`, `add`,
`subtract`, `set` with the parsed `value`, the usage exit, or the rejection of
the argument. -/
inductive Request where
  | get
  | help
  | add (value : Int)
  | subtract (value : Int)
  | set (value : Int)
  | unknown (arg : String)
  deriving DecidableEq, Repr

/-- Lines 108-127 of `main`; `args` is `argv[1..]`.  The `long` result of
`strtol` is stored in the `int` variable `value`, which keeps its low 32
bits. -/
def main_parse (args : List String) : Request :=
  match args with
  | [] => .get
  | arg :: _ =>
    if arg = "-h" ∨ arg = "--help" then .help
    else
      match arg.data with
      | '+' :: rest => .add (wrapInt (strtol rest))
      | '-' :: rest => .subtract (wrapInt (strtol rest))
      | c :: rest =>
        if isdigit c then .set (wrapInt (strtol (c :: rest))) else .unknown arg
      | [] => .unknown arg

/-! ## The four branches of `main` (lines 144-173) -/

/-- The `get` branch: `percent = 100 * brightness / max_brightness`, the number
that is printed. -/
def get_percent (brightness max_brightness : Int) : Option Int :=
  c_div (c_mul 100 brightness) max_brightness

/-- The `add` branch: the `new_value` handed to `set_sysattr_int`. -/
def add_new_value (brightness max_brightness value : Int) : Int :=
  let new_value := c_add brightness (c_div100 (c_mul max_brightness value))
  if new_value > max_brightness then max_brightness else new_value

/-- The `subtract` branch: the `new_value` handed to `set_sysattr_int`. -/
def subtract_new_value (brightness max_brightness value : Int) : Int :=
  let new_value := c_sub brightness (c_div100 (c_mul max_brightness value))
  if new_value < 0 then 0 else new_value

/-- The `set` branch: the `new_value` handed to `set_sysattr_int`. -/
def set_new_value (max_brightness value : Int) : Int :=
  let new_value := c_div100 (c_mul max_brightness value)
  if new_value < 0 then 0
  else if new_value > max_brightness then max_brightness
  else new_value

/-- The `clamp(x, lo, hi) = max(lo, min(x, hi))` of the specification. -/
def clamp (x lo hi : Int) : Int := max lo (min x hi)

/-- The mathematical `floor(a / b)` of the specification: the floor of the
rational quotient. -/
def floorDiv (a b : Int) : Int := ⌊(a : ℚ) / (b : ℚ)⌋

/-! ## `get_backlight_device` (lines 17-61) -/

/-- A `struct udev_device *` handle. -/
abbrev Device := Nat

/-- One list entry as the loop body sees it: the device created from the
syspath of the entry and the value of its `type` attribute, `none` when
`udev_device_get_sysattr_value` returns `NULL` (which is also what it returns
for a `NULL` device). -/
structure Entry where
  type : Option String
  device : Device
  deriving DecidableEq, Repr

/-- What the udev library answers during one call of `get_backlight_device`. -/
structure Enumeration where
  /-- `udev_enumerate_new` returned an object. -/
  new_ok : Bool
  /-- `udev_enumerate_add_match_subsystem` returned a value `>= 0`. -/
  add_match_ok : Bool
  /-- `udev_enumerate_scan_devices` returned a value `>= 0`. -/
  scan_ok : Bool
  /-- The entries of `udev_enumerate_get_list_entry`, in list order. -/
  entries : List Entry
  deriving DecidableEq, Repr

/-- The loop-carried variables `pref_device` and `pref_type`. -/
structure Pref where
  pref_device : Option Device
  pref_type : String
  deriving DecidableEq, Repr

/-- One iteration of `udev_list_entry_foreach` (lines 41-55).  `none` is the
fault of handing a `NULL` `type` to `strcmp`. -/
def scan_step (p : Pref) (e : Entry) : Option Pref :=
  match e.type with
  | none => none
  | some type =>
    if type = "firmware" ∨
       (type = "platform" ∧ p.pref_type ≠ "firmware") ∨
       (p.pref_type ≠ "firmware" ∧ p.pref_type ≠ "platform") then
      some { pref_device := some e.device, pref_type := type }
    else
      some p

/-- The whole `udev_list_entry_foreach` loop. -/
def scan_loop : Pref → List Entry → Option Pref
  | p, [] => some p
  | p, e :: es =>
    match scan_step p e with
    | none => none
    | some q => scan_loop q es

/-- The function `get_backlight_device`.  The outer `none` is a faulting run;
`some none` is the return value `NULL`. -/
def get_backlight_device (u : Enumeration) : Option (Option Device) :=
  if !u.new_ok then some none
  else if !u.add_match_ok then some none
  else if !u.scan_ok then some none
  else
    match scan_loop { pref_device := none, pref_type := "" } u.entries with
    | none => none
    | some p => some p.pref_device

/-- A successful enumeration whose entries all have a readable `type`. -/
def typed_scan (l : List (String × Device)) : Enumeration :=
  { new_ok := true, add_match_ok := true, scan_ok := true,
    entries := l.map fun c => { type := some c.1, device := c.2 } }

/-- The ranking of the specification: `"firmware"` above `"platform"` above
anything else. -/
def tier (t : String) : Nat :=
  if t = "firmware" then 2 else if t = "platform" then 1 else 0

/-- The highest tier present in a scan list. -/
def top_tier (l : List (String × Device)) : Nat :=
  (l.map fun c => tier c.1).foldr max 0

/-- The first-seen rule of the specification: the first candidate, in scan
order, of the highest tier present. -/
def first_of_top_tier (l : List (String × Device)) : Option Device :=
  (l.find? fun c => tier c.1 == top_tier l).map fun c => c.2

/-- The last-seen rule: the last candidate, in scan order, of the highest tier
present. -/
def last_of_top_tier (l : List (String × Device)) : Option Device :=
  (l.reverse.find? fun c => tier c.1 == top_tier l).map fun c => c.2

/-! ## Attribute access and the run of `main` -/

/-- The environment of one run: the answers of the udev library. -/
structure World where
  /-- `udev_new` returned an object. -/
  udev_new_ok : Bool
  /-- What the enumeration inside `get_backlight_device` sees. -/
  enumeration : Enumeration
  /-- The answer of `udev_device_get_sysattr_value`: the text of the attribute,
  `none` for `NULL`. -/
  sysattr_value : Device → String → Option String
  /-- Whether `udev_device_set_sysattr_value` returns a value `>= 0` for the
  given device, attribute and text. -/
  set_sysattr_value_ok : Device → String → String → Bool

/-- The function `get_sysattr_int`: `-1` for a missing attribute, otherwise the
`long` result of `strtol` returned as an `int`. -/
def get_sysattr_int (w : World) (device : Device) (sysattr : String) : Int :=
  match w.sysattr_value device sysattr with
  | none => -1
  | some str => wrapInt (strtol str.data)

/-- The text that `sprintf(str, "%d", value)` produces. -/
def sprintf_d (value : Int) : String := toString value

/-- The size of the buffer `char str[4]` of `set_sysattr_int`. -/
def str_size : Nat := 4

/-- The function `set_sysattr_int`, with the text handed to the library.
`sprintf` stores the text and a terminating NUL in `str`.  When they fit
(`value` in `[-99, 999]`) the result is the text and the answer of
`udev_device_set_sysattr_value`.  When they need more than `str_size` bytes the
store runs past the end of the array: from there on C defines nothing (a build
with checked `sprintf` aborts at the store, an unchecked build may go on to the
library call), and the result is `none`, which says only that the defined
behaviour of the call ends at the store. -/
def set_sysattr_int (w : World) (device : Device) (sysattr : String) (value : Int) :
    Option (String × Bool) :=
  let str := sprintf_d value
  if str.length + 1 > str_size then none
  else some (str, w.set_sysattr_value_ok device sysattr str)

/-- How a run ends: `exit(EXIT_SUCCESS)` or the return from `main`,
`exit(EXIT_FAILURE)`, or a fault (a trapping division, a `NULL` string handed
to `strcmp`, a store past the end of `str`).  A run that ends as a fault is
recorded up to the fault; nothing is stated about what a build does after
it. -/
inductive Exit where
  | success
  | failure
  | fault
  deriving DecidableEq, Repr

/-- The calls into the udev library that a run performs. -/
inductive Op where
  | udev_new
  | enumerate
  | get_sysattr (device : Device) (sysattr : String)
  | set_sysattr (device : Device) (sysattr : String) (text : String) (ok : Bool)
  deriving DecidableEq, Repr

/-- The observable behaviour of a run. -/
structure Run where
  /-- How the run ends. -/
  status : Exit
  /-- The text written to standard output. -/
  out : String
  /-- The text written to standard error. -/
  err : String
  /-- The udev calls, in order. -/
  ops : List Op
  deriving DecidableEq, Repr

/-- The text of `print_usage`. -/
def print_usage (cmd : String) : String :=
  "Usage: " ++ cmd ++ " [[+-][PERCENT]]\n" ++
  "Add to, subtract from or set backlight level in PERCENT.\n" ++
  "If no options given, the program reports current backlight level" ++
  " in percent.\n"

/-- Lines 129-142 of `main`: `udev_new`, `get_backlight_device` and the two
attribute reads; `branch` is the code of lines 144-173, given the device, the
two values read and the calls made so far. -/
def main_device (w : World) (branch : Device → Int → Int → List Op → Run) : Run :=
  if !w.udev_new_ok then
    { status := .failure, out := "", err := "udev object creation failed.\n",
      ops := [.udev_new] }
  else
    match get_backlight_device w.enumeration with
    | none => { status := .fault, out := "", err := "", ops := [.udev_new, .enumerate] }
    | some none =>
      { status := .failure, out := "", err := "Failed to find backlight device.\n",
        ops := [.udev_new, .enumerate] }
    | some (some device) =>
      let brightness := get_sysattr_int w device "brightness"
      let max_brightness := get_sysattr_int w device "max_brightness"
      branch device brightness max_brightness
        [.udev_new, .enumerate, .get_sysattr device "brightness",
          .get_sysattr device "max_brightness"]

/-- The tail shared by the `add`, `subtract` and `set` branches: the call of
`set_sysattr_int` on `"brightness"`, `exit(EXIT_FAILURE)` when it returns
`false`, otherwise the end of `main`.  When the text does not fit `str` the run
is recorded up to the store past the end of `str` and ends as a fault. -/
def main_write (w : World) (device : Device) (ops : List Op) (new_value : Int) : Run :=
  match set_sysattr_int w device "brightness" new_value with
  | none => { status := .fault, out := "", err := "", ops := ops }
  | some (str, false) =>
    { status := .failure, out := "", err := "Failed to set brightness.\n",
      ops := ops ++ [.set_sysattr device "brightness" str false] }
  | some (str, true) =>
    { status := .success, out := "", err := "",
      ops := ops ++ [.set_sysattr device "brightness" str true] }

/-- The `get` branch with its output: the percentage is printed with
`"%d%%\n"`; a trapping division is a fault. -/
def main_get (brightness max_brightness : Int) (ops : List Op) : Run :=
  match get_percent brightness max_brightness with
  | none => { status := .fault, out := "", err := "", ops := ops }
  | some percent =>
    { status := .success, out := toString percent ++ "%\n", err := "", ops := ops }

/-- The function `main`; `cmd` is `argv[0]` and `args` is `argv[1..]`. -/
def main (w : World) (cmd : String) (args : List String) : Run :=
  match main_parse args with
  | .help => { status := .success, out := print_usage cmd, err := "", ops := [] }
  | .unknown arg =>
    { status := .failure, out := "", err := "Unknown argument: " ++ arg ++ "\n", ops := [] }
  | .get => main_device w fun _ brightness max_brightness ops =>
      main_get brightness max_brightness ops
  | .add value => main_device w fun device brightness max_brightness ops =>
      main_write w device ops (add_new_value brightness max_brightness value)
  | .subtract value => main_device w fun device brightness max_brightness ops =>
      main_write w device ops (subtract_new_value brightness max_brightness value)
  | .set value => main_device w fun device _ max_brightness ops =>
      main_write w device ops (set_new_value max_brightness value)

/-- A world with one backlight device `0` of type `"raw"` whose `brightness`
and `max_brightness` attributes have the given texts and whose writes are
accepted or rejected as `accept` says. -/
def one_device_world (brightness max_brightness : Option String) (accept : Bool) : World :=
  { udev_new_ok := true,
    enumeration := typed_scan [("raw", 0)],
    sysattr_value := fun _ sysattr =>
      if sysattr = "brightness" then brightness
      else if sysattr = "max_brightness" then max_brightness
      else none,
    set_sysattr_value_ok := fun _ _ _ => accept }

/-! ## Arithmetic lemmas -/

theorem wrapInt_of_fits (x : Int) (hlo : INT_MIN ≤ x) (hhi : x ≤ INT_MAX) :
    wrapInt x = x := by
  unfold INT_MIN at hlo
  unfold INT_MAX at hhi
  unfold wrapInt
  omega

theorem floorDiv_eq_ediv (a b : Int) (hb : 0 < b) : floorDiv a b = a / b := by
  unfold floorDiv
  obtain ⟨n, rfl⟩ := Int.eq_ofNat_of_zero_le hb.le
  exact_mod_cast Rat.floor_intCast_div_natCast a n

theorem tdiv100_of_nonneg (x : Int) (hx : 0 ≤ x) : Int.tdiv x 100 = x / 100 :=
  Int.tdiv_eq_ediv hx (by decide)

theorem tdiv100_of_neg (x : Int) (hx : x < 0) : Int.tdiv x 100 = -((-x) / 100) := by
  rw [← Int.tdiv_eq_ediv (by omega) (by decide), Int.neg_tdiv, neg_neg]

/-- Without overflow the `get` branch computes the quotient of `100 * current`
by `max`. -/
theorem get_percent_eq_ediv (current max : Int) (h0 : 0 ≤ current) (hpos : 0 < max)
    (hfit : 100 * current ≤ INT_MAX) :
    get_percent current max = some (100 * current / max) := by
  have hw : wrapInt (100 * current) = 100 * current :=
    wrapInt_of_fits _ (by unfold INT_MIN; omega) hfit
  unfold get_percent c_div c_mul
  rw [hw, if_neg (by omega), if_neg (by omega), Int.tdiv_eq_ediv (by omega) hpos.le]

/-- Without overflow the `set` branch clamps the quotient of `max * percent`
by 100 (rounding toward zero and rounding down agree after the clamp). -/
theorem set_new_value_eq_ediv (max percent : Int) (hpos : 0 < max)
    (hlo : INT_MIN ≤ max * percent) (hhi : max * percent ≤ INT_MAX) :
    set_new_value max percent = clamp (max * percent / 100) 0 max := by
  unfold set_new_value c_mul c_div100 clamp
  rw [wrapInt_of_fits _ hlo hhi]
  simp only
  rcases lt_or_le (max * percent) 0 with hneg | hnn
  · rw [tdiv100_of_neg _ hneg]
    split_ifs <;> omega
  · rw [tdiv100_of_nonneg _ hnn]
    split_ifs <;> omega

/-! ## The `get` branch -/

/-- C1 (amended): for all `current`, `max` with `0 ≤ current ≤ max`, `max > 0`
and `100 * current ≤ INT_MAX`, the percentage of the `get` branch is
`floor(100 * current / max)` and lies in `[0, 100]`. -/
theorem get_percent_floor_of_fits (current max : Int) (h0 : 0 ≤ current)
    (hle : current ≤ max) (hpos : 0 < max) (hfit : 100 * current ≤ INT_MAX) :
    get_percent current max = some (floorDiv (100 * current) max) ∧
      0 ≤ floorDiv (100 * current) max ∧ floorDiv (100 * current) max ≤ 100 := by
  rw [floorDiv_eq_ediv _ _ hpos]
  exact ⟨get_percent_eq_ediv current max h0 hpos hfit,
    Int.ediv_nonneg (by omega) hpos.le, Int.ediv_le_of_le_mul hpos (by omega)⟩

/-- The scenario `current = 50`, `max = 200` of C1: the report is 25. -/
theorem get_percent_floor_of_fits_witness : get_percent 50 200 = some 25 := by
  have h := (get_percent_floor_of_fits 50 200 (by decide) (by decide) (by decide)
    (by decide)).1
  rw [floorDiv_eq_ediv _ _ (by decide)] at h
  exact h

/-- C1 fails as stated: with `current = max = 21474837` the product
`100 * brightness` leaves the range of `int`, the branch prints `-99`, and
`floor(100 * current / max)` is 100. -/
theorem get_percent_overflow :
    get_percent 21474837 21474837 = some (-99) ∧
      floorDiv (100 * 21474837) 21474837 = 100 := by
  refine ⟨by decide, ?_⟩
  rw [floorDiv_eq_ediv _ _ (by decide)]
  decide

/-! ## The `add` and `subtract` branches -/

/-- C2 (the code at the failing input): the argument `+-5` selects the `add`
branch with value `-5`, and with `brightness = 0`, `max_brightness = 200` the
branch hands `-10` to the brightness write: it has an upper clamp only. -/
theorem add_new_value_negative :
    main_parse ["+-5"] = Request.add (-5) ∧ add_new_value 0 200 (-5) = -10 := by
  decide

/-- C3 (the code at the failing input): the argument `--5` selects the
`subtract` branch with value `-5`, and with `brightness = 200`,
`max_brightness = 200` the branch hands `210` to the brightness write: it has
a lower clamp only. -/
theorem subtract_new_value_above_max :
    main_parse ["--5"] = Request.subtract (-5) ∧ subtract_new_value 200 200 (-5) = 210 := by
  decide

/-- C6 (amended): for valid `current`, `max` and every `percent` such that
`max * percent` and the sum `current + max * percent / 100` are representable
as an `int` and the sum is not negative, the value of the `add` branch is
`clamp(current + q, 0, max)`, where `q` is `max * percent / 100` truncated
toward zero; for `percent ≥ 0`, `q` is `floor(max * percent / 100)`. -/
theorem add_new_value_eq_clamp_of_fits (current max percent : Int)
    (_h0 : 0 ≤ current) (_hle : current ≤ max) (hpos : 0 < max)
    (hlo : INT_MIN ≤ max * percent) (hhi : max * percent ≤ INT_MAX)
    (hnn : 0 ≤ current + Int.tdiv (max * percent) 100)
    (hsum : current + Int.tdiv (max * percent) 100 ≤ INT_MAX) :
    add_new_value current max percent
        = clamp (current + Int.tdiv (max * percent) 100) 0 max ∧
      (0 ≤ percent → Int.tdiv (max * percent) 100 = floorDiv (max * percent) 100) := by
  constructor
  · unfold add_new_value c_add c_mul c_div100 clamp
    rw [wrapInt_of_fits _ hlo hhi, wrapInt_of_fits _ (by unfold INT_MIN; omega) hsum]
    simp only
    split_ifs <;> omega
  · intro hp
    rw [floorDiv_eq_ediv _ _ (by decide)]
    exact tdiv100_of_nonneg _ (Int.mul_nonneg hpos.le hp)

/-- The scenario of C6: `add(current = 50, max = 200, percent = 30)` is
`clamp(50 + 60, 0, 200) = 110`. -/
theorem add_new_value_eq_clamp_of_fits_witness : add_new_value 50 200 30 = 110 :=
  (add_new_value_eq_clamp_of_fits 50 200 30 (by decide) (by decide) (by decide)
    (by decide) (by decide) (by decide) (by decide)).1.trans (by decide)

/-- C6 fails as stated, in two ways that are no missing clamp.  With
`current = 50`, `max = 200`, `percent = 21474837` the `int` product wraps and
the branch yields 51, not `clamp(50 + 42949674, 0, 200) = 200`.  With
`current = 100`, `max = 150`, `percent = -1` the quotient is truncated toward
zero and the branch yields 99, not `clamp(100 + floor(-1.5), 0, 150) = 98`. -/
theorem add_new_value_not_clamp_floor :
    (add_new_value 50 200 21474837 = 51 ∧
      clamp (50 + floorDiv (200 * 21474837) 100) 0 200 = 200) ∧
    (add_new_value 100 150 (-1) = 99 ∧
      clamp (100 + floorDiv (150 * (-1)) 100) 0 150 = 98) := by
  refine ⟨⟨by decide, ?_⟩, ⟨by decide, ?_⟩⟩
  · rw [floorDiv_eq_ediv _ _ (by decide)]
    decide
  · rw [floorDiv_eq_ediv _ _ (by decide)]
    decide

/-- C7 (amended): for valid `current`, `max ≤ INT_MAX` and every `percent`
such that `max * percent` is representable as an `int` and `current - q ≤ max`,
where `q` is `max * percent / 100` truncated toward zero, the value of the
`subtract` branch is `clamp(current - q, 0, max)`; for `percent ≥ 0`, `q` is
`floor(max * percent / 100)`. -/
theorem subtract_new_value_eq_clamp_of_fits (current max percent : Int)
    (h0 : 0 ≤ current) (_hle : current ≤ max) (hpos : 0 < max)
    (hmax : max ≤ INT_MAX)
    (hlo : INT_MIN ≤ max * percent) (hhi : max * percent ≤ INT_MAX)
    (hup : current - Int.tdiv (max * percent) 100 ≤ max) :
    subtract_new_value current max percent
        = clamp (current - Int.tdiv (max * percent) 100) 0 max ∧
      (0 ≤ percent → Int.tdiv (max * percent) 100 = floorDiv (max * percent) 100) := by
  constructor
  · have hq : Int.tdiv (max * percent) 100 ≤ 21474836 := by
      unfold INT_MAX at hhi
      rcases lt_or_le (max * percent) 0 with hneg | hge
      · rw [tdiv100_of_neg _ hneg]
        omega
      · rw [tdiv100_of_nonneg _ hge]
        omega
    unfold subtract_new_value c_sub c_mul c_div100 clamp
    rw [wrapInt_of_fits _ hlo hhi,
      wrapInt_of_fits _ (by unfold INT_MIN; omega) (by omega)]
    simp only
    split_ifs <;> omega
  · intro hp
    rw [floorDiv_eq_ediv _ _ (by decide)]
    exact tdiv100_of_nonneg _ (Int.mul_nonneg hpos.le hp)

/-- The scenario of C7: `subtract(current = 10, max = 200, percent = 10)` is
`clamp(10 - 20, 0, 200) = 0`. -/
theorem subtract_new_value_eq_clamp_of_fits_witness : subtract_new_value 10 200 10 = 0 :=
  (subtract_new_value_eq_clamp_of_fits 10 200 10 (by decide) (by decide) (by decide)
    (by decide) (by decide) (by decide) (by decide)).1.trans (by decide)

/-- C7 fails as stated, in two ways that are no missing clamp.  With
`current = 50`, `max = 200`, `percent = 21474837` the `int` product wraps and
the branch yields 49, not `clamp(50 - 42949674, 0, 200) = 0`.  With
`current = 100`, `max = 150`, `percent = -1` the quotient is truncated toward
zero and the branch yields 101, not `clamp(100 - floor(-1.5), 0, 150) = 102`. -/
theorem subtract_new_value_not_clamp_floor :
    (subtract_new_value 50 200 21474837 = 49 ∧
      clamp (50 - floorDiv (200 * 21474837) 100) 0 200 = 0) ∧
    (subtract_new_value 100 150 (-1) = 101 ∧
      clamp (100 - floorDiv (150 * (-1)) 100) 0 150 = 102) := by
  refine ⟨⟨by decide, ?_⟩, ⟨by decide, ?_⟩⟩
  · rw [floorDiv_eq_ediv _ _ (by decide)]
    decide
  · rw [floorDiv_eq_ediv _ _ (by decide)]
    decide

/-! ## The `set` branch -/

/-- C4: for every `max > 0` and every integer `percent`, the value of the
`set` branch lies in `[0, max]`; `current` is not an input of the branch. -/
theorem set_new_value_in_range (max percent : Int) (hpos : 0 < max) :
    0 ≤ set_new_value max percent ∧ set_new_value max percent ≤ max := by
  unfold set_new_value
  simp only
  split_ifs <;> omega

/-- The scenario of C4: `set(max = 200, percent = 150)` is 200, inside
`[0, 200]`. -/
theorem set_new_value_in_range_witness :
    set_new_value 200 150 = 200 ∧
      (0 ≤ set_new_value 200 150 ∧ set_new_value 200 150 ≤ 200) :=
  ⟨by decide, set_new_value_in_range 200 150 (by decide)⟩

/-- C5 (amended): for every `max > 0` and every `percent` whose product
`max * percent` is representable as an `int`, the value of the `set` branch is
`clamp(floor(max * percent / 100), 0, max)`. -/
theorem set_new_value_eq_clamp_of_fits (max percent : Int) (hpos : 0 < max)
    (hlo : INT_MIN ≤ max * percent) (hhi : max * percent ≤ INT_MAX) :
    set_new_value max percent = clamp (floorDiv (max * percent) 100) 0 max := by
  rw [floorDiv_eq_ediv _ _ (by decide)]
  exact set_new_value_eq_ediv max percent hpos hlo hhi

/-- An instance of C5 (amended): `set(max = 200, percent = 150)`. -/
theorem set_new_value_eq_clamp_of_fits_witness :
    set_new_value 200 150 = clamp (floorDiv (200 * 150) 100) 0 200 :=
  set_new_value_eq_clamp_of_fits 200 150 (by decide) (by decide) (by decide)

/-- C5 fails as stated: with `max = 200` and `percent = 21474837` the `int`
product wraps to 104, the branch yields 1, and
`clamp(floor(max * percent / 100), 0, max)` is 200. -/
theorem set_new_value_overflow :
    set_new_value 200 21474837 = 1 ∧
      clamp (floorDiv (200 * 21474837) 100) 0 200 = 200 := by
  refine ⟨by decide, ?_⟩
  rw [floorDiv_eq_ediv _ _ (by decide)]
  decide

/-! ## Round trip of `set` and `get` -/

/-- C8 (amended): for every `max ≥ 100` and `p` in `[0, 100]` with
`max * p ≤ INT_MAX`, the `get` branch applied to the value of the `set` branch
prints a percentage `r` with `p - 1 ≤ r ≤ p`. -/
theorem get_percent_set_new_value (max p : Int) (hmax : 100 ≤ max) (hp0 : 0 ≤ p)
    (hp1 : p ≤ 100) (hfit : max * p ≤ INT_MAX) :
    ∃ r, get_percent (set_new_value max p) max = some r ∧ p - 1 ≤ r ∧ r ≤ p := by
  have hpos : 0 < max := by omega
  have hprod : 0 ≤ max * p := Int.mul_nonneg hpos.le hp0
  have hple : max * p ≤ 100 * max := by nlinarith
  have hset : set_new_value max p = max * p / 100 := by
    rw [set_new_value_eq_ediv max p hpos (by unfold INT_MIN; omega) hfit]
    unfold clamp
    omega
  have hv0 : 0 ≤ max * p / 100 := by omega
  have hvle : max * p / 100 ≤ max := by omega
  have h100 : 100 * (max * p / 100) ≤ max * p := by omega
  have hget := get_percent_eq_ediv (max * p / 100) max hv0 hpos (by omega)
  refine ⟨_, by rw [hset]; exact hget, ?_, ?_⟩
  · apply Int.le_ediv_of_mul_le hpos
    have : max * p - 100 < 100 * (max * p / 100) := by omega
    nlinarith
  · apply Int.ediv_le_of_le_mul hpos
    rw [Int.mul_comm p max]
    exact h100

/-- An instance of C8 (amended): `max = 255`, `p = 50` (the `set` branch
yields 127, which is reported as 49). -/
theorem get_percent_set_new_value_witness :
    ∃ r, get_percent (set_new_value 255 50) 255 = some r ∧ 50 - 1 ≤ r ∧ r ≤ 50 :=
  get_percent_set_new_value 255 50 (by decide) (by decide) (by decide) (by decide)

/-- C8 fails as stated: with `max = 21474837` and `p = 100` the `int` product
`max * p` wraps to a negative number, the `set` branch yields 0, and the `get`
branch reports 0, which is below `p - 1 = 99`. -/
theorem get_percent_set_new_value_overflow :
    set_new_value 21474837 100 = 0 ∧
      get_percent (set_new_value 21474837 100) 21474837 = some 0 := by
  decide

/-! ## Device selection -/

theorem tier_eq_two (t : String) : tier t = 2 ↔ t = "firmware" := by
  unfold tier
  split_ifs with h1 h2 <;> simp [h1]

theorem tier_eq_one (t : String) : tier t = 1 ↔ t = "platform" := by
  unfold tier
  split_ifs with h1 h2
  · subst h1
    simp
  · simp [h2]
  · simp [h2]

theorem tier_le_two (t : String) : tier t ≤ 2 := by
  unfold tier
  split_ifs <;> omega

/-- The replacement test of the loop body is a comparison of tiers: the
candidate replaces the running best unless the best is in a strictly higher
tier. -/
theorem scan_step_typed (p : Pref) (t : String) (d : Device) :
    scan_step p { type := some t, device := d }
      = some (if tier p.pref_type ≤ tier t then { pref_device := some d, pref_type := t }
              else p) := by
  unfold scan_step tier
  by_cases ht1 : t = "firmware" <;> by_cases ht2 : t = "platform" <;>
    by_cases hp1 : p.pref_type = "firmware" <;>
    by_cases hp2 : p.pref_type = "platform" <;>
    simp_all

/-- The loop over entries with readable types never faults; its result is
either the initial state, when every candidate is in a strictly lower tier, or
a candidate `c` that is preceded only by candidates of at most its tier and
followed only by candidates of strictly lower tiers. -/
theorem scan_loop_typed (l : List (String × Device)) (p : Pref) :
    (scan_loop p (l.map fun c => { type := some c.1, device := c.2 }) = some p ∧
        ∀ x ∈ l, tier x.1 < tier p.pref_type) ∨
      ∃ pre c post, l = pre ++ c :: post ∧ tier p.pref_type ≤ tier c.1 ∧
        (∀ x ∈ pre, tier x.1 ≤ tier c.1) ∧ (∀ x ∈ post, tier x.1 < tier c.1) ∧
        scan_loop p (l.map fun c => { type := some c.1, device := c.2 })
          = some { pref_device := some c.2, pref_type := c.1 } := by
  induction l generalizing p with
  | nil =>
    left
    exact ⟨rfl, by simp⟩
  | cons a l ih =>
    simp only [List.map_cons, scan_loop, scan_step_typed]
    by_cases hrep : tier p.pref_type ≤ tier a.1
    · rw [if_pos hrep]
      right
      rcases ih { pref_device := some a.2, pref_type := a.1 } with ⟨hres, hall⟩ | h
      · exact ⟨[], a, l, rfl, hrep, by simp, hall, hres⟩
      · obtain ⟨pre, c, post, hl, hac, hpre, hpost, hres⟩ := h
        refine ⟨a :: pre, c, post, by rw [hl]; rfl, le_trans hrep hac, ?_, hpost, hres⟩
        intro x hx
        rcases List.mem_cons.mp hx with rfl | hx
        · exact hac
        · exact hpre x hx
    · rw [if_neg hrep]
      rcases ih p with ⟨hres, hall⟩ | h
      · left
        refine ⟨hres, ?_⟩
        intro x hx
        rcases List.mem_cons.mp hx with rfl | hx
        · omega
        · exact hall x hx
      · right
        obtain ⟨pre, c, post, hl, hpc, hpre, hpost, hres⟩ := h
        refine ⟨a :: pre, c, post, by rw [hl]; rfl, hpc, ?_, hpost, hres⟩
        intro x hx
        rcases List.mem_cons.mp hx with rfl | hx
        · omega
        · exact hpre x hx

/-- For a non-empty scan list with readable types the function returns the
device of a candidate that is preceded only by candidates of at most its tier
and followed only by candidates of strictly lower tiers. -/
theorem get_backlight_device_typed (l : List (String × Device)) (hne : l ≠ []) :
    ∃ pre c post, l = pre ++ c :: post ∧
      (∀ x ∈ pre, tier x.1 ≤ tier c.1) ∧ (∀ x ∈ post, tier x.1 < tier c.1) ∧
      get_backlight_device (typed_scan l) = some (some c.2) := by
  rcases scan_loop_typed l { pref_device := none, pref_type := "" } with ⟨_, hall⟩ | h
  · obtain ⟨a, l', rfl⟩ := List.exists_cons_of_ne_nil hne
    have := hall a (List.mem_cons_self a l')
    simp [tier] at this
  · obtain ⟨pre, c, post, hl, _, hpre, hpost, hres⟩ := h
    refine ⟨pre, c, post, hl, hpre, hpost, ?_⟩
    simp only [get_backlight_device, typed_scan, Bool.not_true, Bool.false_eq_true, if_false]
    rw [hres]

theorem tier_le_top_tier (l : List (String × Device)) (x : String × Device) (hx : x ∈ l) :
    tier x.1 ≤ top_tier l := by
  induction l with
  | nil => simp at hx
  | cons a l ih =>
    simp only [top_tier, List.map_cons, List.foldr_cons] at ih ⊢
    rcases List.mem_cons.mp hx with rfl | h
    · exact le_max_left _ _
    · exact le_trans (ih h) (le_max_right _ _)

theorem top_tier_le (l : List (String × Device)) (n : Nat)
    (h : ∀ x ∈ l, tier x.1 ≤ n) : top_tier l ≤ n := by
  induction l with
  | nil => simp [top_tier]
  | cons a l ih =>
    simp only [top_tier, List.map_cons, List.foldr_cons] at ih ⊢
    exact max_le (h a (List.mem_cons_self a l))
      (ih fun x hx => h x (List.mem_cons_of_mem a hx))

/-- C9: for every non-empty scan list with readable types, the function
returns a device of type `"firmware"` if some scanned device has type
`"firmware"`; otherwise it returns a device of type `"platform"` if some
scanned device has type `"platform"`. -/
theorem get_backlight_device_tier_priority (l : List (String × Device)) (hne : l ≠ []) :
    ((∃ x ∈ l, x.1 = "firmware") →
        ∃ c ∈ l, c.1 = "firmware" ∧ get_backlight_device (typed_scan l) = some (some c.2)) ∧
      ((¬ ∃ x ∈ l, x.1 = "firmware") → (∃ x ∈ l, x.1 = "platform") →
        ∃ c ∈ l, c.1 = "platform" ∧ get_backlight_device (typed_scan l) = some (some c.2)) := by
  obtain ⟨pre, c, post, hl, hpre, hpost, hres⟩ := get_backlight_device_typed l hne
  have hc : c ∈ l := by rw [hl]; simp
  have htop : ∀ x ∈ l, tier x.1 ≤ tier c.1 := by
    intro x hx
    rw [hl] at hx
    rcases List.mem_append.mp hx with h | h
    · exact hpre x h
    · rcases List.mem_cons.mp h with rfl | h
      · exact le_rfl
      · exact (hpost x h).le
  constructor
  · rintro ⟨x, hx, hfw⟩
    have h2 : tier x.1 = 2 := (tier_eq_two _).mpr hfw
    have := htop x hx
    have := tier_le_two c.1
    exact ⟨c, hc, (tier_eq_two _).mp (by omega), hres⟩
  · rintro hno ⟨x, hx, hpf⟩
    have h1 : tier x.1 = 1 := (tier_eq_one _).mpr hpf
    have := htop x hx
    have := tier_le_two c.1
    have hn2 : tier c.1 ≠ 2 := fun h => hno ⟨c, hc, (tier_eq_two _).mp h⟩
    exact ⟨c, hc, (tier_eq_one _).mp (by omega), hres⟩

/-- The scenarios of C9: `[usb D1, platform D2, firmware D3]` gives `D3` and
`[usb D1, platform D2]` gives `D2`. -/
theorem get_backlight_device_tier_priority_witness :
    get_backlight_device (typed_scan [("usb", 1), ("platform", 2), ("firmware", 3)])
        = some (some 3) ∧
      get_backlight_device (typed_scan [("usb", 1), ("platform", 2)]) = some (some 2) := by
  constructor
  · obtain ⟨c, hc, hfw, hres⟩ :=
      (get_backlight_device_tier_priority [("usb", 1), ("platform", 2), ("firmware", 3)]
        (by simp)).1 ⟨("firmware", 3), by simp, rfl⟩
    simp only [List.mem_cons, List.mem_singleton, List.not_mem_nil, or_false] at hc
    rcases hc with rfl | rfl | rfl
    · simp at hfw
    · simp at hfw
    · exact hres
  · obtain ⟨c, hc, hpf, hres⟩ :=
      (get_backlight_device_tier_priority [("usb", 1), ("platform", 2)] (by simp)).2
        (by simp) ⟨("platform", 2), by simp, rfl⟩
    simp only [List.mem_cons, List.mem_singleton, List.not_mem_nil, or_false] at hc
    rcases hc with rfl | rfl
    · simp at hpf
    · exact hres

/-- C10 (amended): for every non-empty scan list with readable types, among
the scanned devices of the highest tier present the function returns the one
that comes last in scan order: the returned candidate is of the highest tier
present and every candidate after it is of a strictly lower tier. -/
theorem get_backlight_device_last_of_top_tier (l : List (String × Device)) (hne : l ≠ []) :
    ∃ pre c post, l = pre ++ c :: post ∧ tier c.1 = top_tier l ∧
      (∀ x ∈ post, tier x.1 < top_tier l) ∧
      get_backlight_device (typed_scan l) = some (some c.2) := by
  obtain ⟨pre, c, post, hl, hpre, hpost, hres⟩ := get_backlight_device_typed l hne
  have hc : c ∈ l := by rw [hl]; simp
  have htop : top_tier l = tier c.1 := by
    apply le_antisymm
    · apply top_tier_le
      intro x hx
      rw [hl] at hx
      rcases List.mem_append.mp hx with h | h
      · exact hpre x h
      · rcases List.mem_cons.mp h with rfl | h
        · exact le_rfl
        · exact (hpost x h).le
    · exact tier_le_top_tier l c hc
  exact ⟨pre, c, post, hl, htop.symm, fun x hx => htop ▸ hpost x hx, hres⟩

/-- An instance of C10 (amended): in `[raw D1, platform D2, platform D3, raw D4]`
the last candidate of the highest tier present is `D3`. -/
theorem get_backlight_device_last_of_top_tier_witness :
    ∃ pre c post,
      [("raw", 1), ("platform", 2), ("platform", 3), ("raw", 4)] = pre ++ c :: post ∧
      tier c.1 = top_tier [("raw", 1), ("platform", 2), ("platform", 3), ("raw", 4)] ∧
      (∀ x ∈ post,
        tier x.1 < top_tier [("raw", 1), ("platform", 2), ("platform", 3), ("raw", 4)]) ∧
      get_backlight_device
          (typed_scan [("raw", 1), ("platform", 2), ("platform", 3), ("raw", 4)])
        = some (some c.2) :=
  get_backlight_device_last_of_top_tier
    [("raw", 1), ("platform", 2), ("platform", 3), ("raw", 4)] (by simp)

/-- C10 fails as stated: on `[usb D1, usb D2]` the function returns `D2`, while
the first candidate of the highest tier present is `D1`. -/
theorem get_backlight_device_not_first_seen :
    get_backlight_device (typed_scan [("usb", 1), ("usb", 2)]) = some (some 2) ∧
      first_of_top_tier [("usb", 1), ("usb", 2)] = some 1 := by
  decide

/-! ## The return value `NULL` of `get_backlight_device` -/

theorem scan_step_first (e : Entry) (q : Pref)
    (h : scan_step { pref_device := none, pref_type := "" } e = some q) :
    q.pref_device ≠ none := by
  unfold scan_step at h
  cases ht : e.type with
  | none => simp [ht] at h
  | some t =>
    simp only [ht] at h
    rw [if_pos (Or.inr (Or.inr ⟨by decide, by decide⟩))] at h
    cases h
    simp

theorem scan_step_keeps_device (p : Pref) (e : Entry) (q : Pref)
    (h : scan_step p e = some q) (hp : p.pref_device ≠ none) : q.pref_device ≠ none := by
  unfold scan_step at h
  cases ht : e.type with
  | none => simp [ht] at h
  | some t =>
    simp only [ht] at h
    split_ifs at h
    · cases h
      simp
    · cases h
      exact hp

theorem scan_loop_keeps_device (es : List Entry) (p q : Pref)
    (h : scan_loop p es = some q) (hp : p.pref_device ≠ none) : q.pref_device ≠ none := by
  induction es generalizing p with
  | nil =>
    simp only [scan_loop] at h
    cases h
    exact hp
  | cons e es ih =>
    simp only [scan_loop] at h
    cases hs : scan_step p e with
    | none => simp [hs] at h
    | some r =>
      simp only [hs] at h
      exact ih r h (scan_step_keeps_device p e r hs hp)

/-- The return value is `NULL` if and only if the enumeration could not be
created, filtered or scanned, or the scan list is empty; for every non-empty
scan list with readable types the function returns one of the scanned
devices. -/
theorem get_backlight_device_null_iff (u : Enumeration) (l : List (String × Device)) :
    (get_backlight_device u = some none ↔
        u.new_ok = false ∨ u.add_match_ok = false ∨ u.scan_ok = false ∨ u.entries = []) ∧
      (l ≠ [] → ∃ c ∈ l, get_backlight_device (typed_scan l) = some (some c.2)) := by
  constructor
  · unfold get_backlight_device
    cases h1 : u.new_ok <;> cases h2 : u.add_match_ok <;> cases h3 : u.scan_ok <;>
      simp
    cases hes : u.entries with
    | nil => simp [scan_loop]
    | cons e es =>
      simp only [scan_loop, reduceCtorEq, iff_false]
      cases hs : scan_step { pref_device := none, pref_type := "" } e with
      | none => simp
      | some r =>
        simp only
        cases hl : scan_loop r es with
        | none => simp
        | some q =>
          have := scan_loop_keeps_device es r q hl (scan_step_first e r hs)
          simpa using this
  · intro hne
    obtain ⟨pre, c, post, hl, _, _, hres⟩ := get_backlight_device_typed l hne
    exact ⟨c, by rw [hl]; simp, hres⟩

/-- Instances of the lemma above: the empty scan list gives `NULL`, the scan
list `[raw D1]` gives one of its devices. -/
theorem get_backlight_device_null_iff_witness :
    get_backlight_device (typed_scan []) = some none ∧
      ∃ c ∈ [("raw", 1)], get_backlight_device (typed_scan [("raw", 1)]) = some (some c.2) :=
  ⟨(get_backlight_device_null_iff (typed_scan []) [("raw", 1)]).1.mpr
      (Or.inr (Or.inr (Or.inr rfl))),
    (get_backlight_device_null_iff (typed_scan []) [("raw", 1)]).2 (by simp)⟩

/-- C11 (the code at the failing input): on the non-empty scan list
`[platform D1, D2 without type, firmware D3]` the function hands the `NULL`
type of `D2` to `strcmp` and faults: it returns neither `NULL` nor `D1`, `D2`
or `D3`. -/
theorem get_backlight_device_returns_nothing :
    get_backlight_device
        { new_ok := true, add_match_ok := true, scan_ok := true,
          entries := [{ type := some "platform", device := 1 },
            { type := none, device := 2 }, { type := some "firmware", device := 3 }] }
      = none := by
  decide

/-! ## Classification of the argument -/

theorem isdigit_ne_plus (c : Char) (hc : isdigit c = true) : c ≠ '+' := by
  rintro rfl
  exact absurd hc (by decide)

theorem isdigit_ne_minus (c : Char) (hc : isdigit c = true) : c ≠ '-' := by
  rintro rfl
  exact absurd hc (by decide)

theorem isdigit_not_isspace (c : Char) (hc : isdigit c = true) : isspace c = false := by
  cases hs : isspace c with
  | false => rfl
  | true =>
    exfalso
    simp only [isspace, Bool.or_eq_true, decide_eq_true_eq] at hs
    rcases hs with ((((rfl | rfl) | rfl) | rfl) | rfl) | rfl <;> exact absurd hc (by decide)

/-- On a non-empty string of decimal digits `strtol` yields the number the
digits denote, as long as it is representable as a `long`. -/
theorem strtol_digits (ds : List Char) (hne : ds ≠ []) (hd : ∀ c ∈ ds, isdigit c = true)
    (hfit : (digits_value ds : Int) ≤ LONG_MAX) : strtol ds = digits_value ds := by
  obtain ⟨c, rest, rfl⟩ := List.exists_cons_of_ne_nil hne
  have hc : isdigit c = true := hd c (List.mem_cons_self c rest)
  have htake : List.takeWhile isdigit (c :: rest) = c :: rest :=
    List.takeWhile_eq_self_iff.mpr hd
  have hdrop : List.dropWhile isspace (c :: rest) = c :: rest := by
    simp [List.dropWhile_cons, isdigit_not_isspace c hc]
  have hsign : (match c :: rest with
      | '-' :: r => (true, r)
      | '+' :: r => (false, r)
      | _ => (false, c :: rest)) = (false, c :: rest) := by
    split
    · rename_i heq
      exact absurd (List.cons.inj heq).1 (isdigit_ne_minus c hc)
    · rename_i heq
      exact absurd (List.cons.inj heq).1 (isdigit_ne_plus c hc)
    · rfl
  unfold strtol
  rw [hdrop]
  simp only [hsign, htake]
  rw [if_neg (by decide)]
  exact min_eq_right hfit

theorem wrapInt_strtol_digits (ds : List Char) (hne : ds ≠ [])
    (hd : ∀ c ∈ ds, isdigit c = true) (hfit : (digits_value ds : Int) ≤ INT_MAX) :
    wrapInt (strtol ds) = digits_value ds := by
  have hlong : (digits_value ds : Int) ≤ LONG_MAX := by
    unfold INT_MAX at hfit
    unfold LONG_MAX
    omega
  rw [strtol_digits ds hne hd hlong]
  exact wrapInt_of_fits _ (by unfold INT_MIN; omega) hfit

theorem not_help_of_digits (sign : List Char) (ds : List Char) (hne : ds ≠ [])
    (hd : ∀ c ∈ ds, isdigit c = true) (hsign : sign = [] ∨ sign = ['+'] ∨ sign = ['-']) :
    ¬ (String.mk (sign ++ ds) = "-h" ∨ String.mk (sign ++ ds) = "--help") := by
  obtain ⟨c, rest, rfl⟩ := List.exists_cons_of_ne_nil hne
  have hc : isdigit c = true := hd c (List.mem_cons_self c rest)
  have hh : c ≠ 'h' := by
    rintro rfl
    exact absurd hc (by decide)
  have hm := isdigit_ne_minus c hc
  rintro (h | h) <;> have h2 := congrArg String.data h <;>
    rcases hsign with rfl | rfl | rfl <;> simp_all

/-- C12 (amended): with no argument the request is the report; for every
non-empty string `N` of decimal digits whose number `n` is at most `INT_MAX`,
the argument `+N` is classified as add with percent `n`, `-N` as subtract with
percent `n`, and `N` as set with percent `n`. -/
theorem main_parse_digits (ds : List Char) (more : List String) (hne : ds ≠ [])
    (hd : ∀ c ∈ ds, isdigit c = true) (hfit : (digits_value ds : Int) ≤ INT_MAX) :
    main_parse [] = Request.get ∧
      main_parse (String.mk ('+' :: ds) :: more) = Request.add (digits_value ds) ∧
      main_parse (String.mk ('-' :: ds) :: more) = Request.subtract (digits_value ds) ∧
      main_parse (String.mk ds :: more) = Request.set (digits_value ds) := by
  have hw := wrapInt_strtol_digits ds hne hd hfit
  refine ⟨rfl, ?_, ?_, ?_⟩
  · have hno := not_help_of_digits ['+'] ds hne hd (Or.inr (Or.inl rfl))
    simp only [List.singleton_append] at hno
    simp only [main_parse, if_neg hno, hw]
  · have hno := not_help_of_digits ['-'] ds hne hd (Or.inr (Or.inr rfl))
    simp only [List.singleton_append] at hno
    simp only [main_parse, if_neg hno, hw]
  · have hno := not_help_of_digits [] ds hne hd (Or.inl rfl)
    simp only [List.nil_append] at hno
    obtain ⟨c, rest, rfl⟩ := List.exists_cons_of_ne_nil hne
    have hc : isdigit c = true := hd c (List.mem_cons_self c rest)
    simp only [main_parse, if_neg hno]
    split
    · rename_i heq
      exact absurd (List.cons.inj heq).1 (isdigit_ne_plus c hc)
    · rename_i heq
      exact absurd (List.cons.inj heq).1 (isdigit_ne_minus c hc)
    · rename_i c2 rest2 _ _ heq
      obtain ⟨rfl, rfl⟩ := List.cons.inj heq
      rw [if_pos hc, hw]
    · rename_i heq
      exact absurd heq (by simp)

/-- An instance of C12 (amended): the arguments `+30`, `-30` and `30`. -/
theorem main_parse_digits_witness :
    main_parse [] = Request.get ∧
      main_parse (String.mk ('+' :: ['3', '0']) :: []) = Request.add (digits_value ['3', '0']) ∧
      main_parse (String.mk ('-' :: ['3', '0']) :: [])
        = Request.subtract (digits_value ['3', '0']) ∧
      main_parse (String.mk ['3', '0'] :: []) = Request.set (digits_value ['3', '0']) :=
  main_parse_digits ['3', '0'] [] (by decide) (by decide) (by decide)

/-- C12 fails as stated: the digits of `+2147483648` denote 2147483648, and
the `int` variable `value` holds `-2147483648`; the digits of `4294967296`
denote 4294967296, and `value` holds 0. -/
theorem main_parse_wraps :
    main_parse ["+2147483648"] = Request.add (-2147483648) ∧
      digits_value "2147483648".data = 2147483648 ∧
      main_parse ["4294967296"] = Request.set 0 ∧
      digits_value "4294967296".data = 4294967296 := by
  decide

/-- C13 (amended): an argument is rejected if and only if it is not `-h`, not
`--help`, and its first character (if any) is neither `+`, `-` nor a decimal
digit; a rejected argument makes the run print `Unknown argument: <arg>` on
standard error and exit with failure, without any udev call. -/
theorem main_parse_unknown_iff (w : World) (cmd arg : String) (more : List String) :
    (main_parse (arg :: more) = Request.unknown arg ↔
        arg ≠ "-h" ∧ arg ≠ "--help" ∧
          ∀ c ∈ arg.data.head?, c ≠ '+' ∧ c ≠ '-' ∧ isdigit c = false) ∧
      (main_parse (arg :: more) = Request.unknown arg →
        main w cmd (arg :: more)
          = { status := Exit.failure, out := "",
              err := "Unknown argument: " ++ arg ++ "\n", ops := [] }) := by
  constructor
  · by_cases hh : arg = "-h" ∨ arg = "--help"
    · simp only [main_parse, if_pos hh]
      constructor
      · intro h
        cases h
      · rintro ⟨h1, h2, _⟩
        rcases hh with h | h
        · exact absurd h h1
        · exact absurd h h2
    · simp only [main_parse, if_neg hh]
      have h1 : arg ≠ "-h" := fun h => hh (Or.inl h)
      have h2 : arg ≠ "--help" := fun h => hh (Or.inr h)
      split
      · rename_i heq
        simp [heq]
      · rename_i heq
        simp [heq]
      · rename_i c rest hp hm heq
        have hcp : c ≠ '+' := hp
        have hcm : c ≠ '-' := hm
        by_cases hd : isdigit c = true
        · simp [heq, hd]
        · simp [heq, hd, h1, h2, hcp, hcm]
      · rename_i heq
        simp [heq, h1, h2]
  · intro h
    simp only [main, h]

/-- An instance of C13 (amended): the argument `abc` is rejected. -/
theorem main_parse_unknown_iff_witness :
    main_parse ["abc"] = Request.unknown "abc" ∧
      main (one_device_world (some "50") (some "200") true) "kbacklight" ["abc"]
        = { status := Exit.failure, out := "", err := "Unknown argument: abc\n", ops := [] } :=
  ⟨by decide,
    (main_parse_unknown_iff (one_device_world (some "50") (some "200") true) "kbacklight"
      "abc" []).2 (by decide)⟩

/-- C13 fails as stated: `+abc`, `-x`, `12abc` and `+` are not rejected; they
are taken as add 0, subtract 0, set 12 and add 0. -/
theorem main_parse_accepts_trailing_text :
    main_parse ["+abc"] = Request.add 0 ∧ main_parse ["-x"] = Request.subtract 0 ∧
      main_parse ["12abc"] = Request.set 12 ∧ main_parse ["+"] = Request.add 0 := by
  decide

/-! ## Runs of `main` -/

/-- C14: a rejected argument makes the run exit with failure, and `-h` or
`--help` makes it exit with success after printing the usage text; in both
cases the run performs no udev call. -/
theorem main_no_device_access (w : World) (cmd arg : String) (more : List String) :
    (main_parse (arg :: more) = Request.unknown arg →
        (main w cmd (arg :: more)).status = Exit.failure ∧
          (main w cmd (arg :: more)).ops = []) ∧
      (arg = "-h" ∨ arg = "--help" →
        (main w cmd (arg :: more)).status = Exit.success ∧
          (main w cmd (arg :: more)).ops = [] ∧
          (main w cmd (arg :: more)).out = print_usage cmd) := by
  constructor
  · intro h
    simp only [main, h, and_self]
  · intro h
    have hp : main_parse (arg :: more) = Request.help := by
      simp only [main_parse, if_pos h]
    simp only [main, hp, and_self]

/-- The scenarios of C14: the arguments `abc`, `-h` and `--help`. -/
theorem main_no_device_access_witness :
    ((main (one_device_world (some "50") (some "200") true) "kbacklight" ["abc"]).status
          = Exit.failure ∧
        (main (one_device_world (some "50") (some "200") true) "kbacklight" ["abc"]).ops = []) ∧
      ((main (one_device_world (some "50") (some "200") true) "kbacklight" ["-h"]).status
          = Exit.success ∧
        (main (one_device_world (some "50") (some "200") true) "kbacklight" ["-h"]).ops = [] ∧
        (main (one_device_world (some "50") (some "200") true) "kbacklight" ["-h"]).out
          = print_usage "kbacklight") :=
  ⟨(main_no_device_access (one_device_world (some "50") (some "200") true) "kbacklight"
      "abc" []).1 (by decide),
    (main_no_device_access (one_device_world (some "50") (some "200") true) "kbacklight"
      "-h" []).2 (Or.inl rfl)⟩

/-- The run up to the branch, when `udev_new` succeeds and a device is
selected. -/
theorem main_device_selected (w : World) (device : Device)
    (branch : Device → Int → Int → List Op → Run) (hnew : w.udev_new_ok = true)
    (hdev : get_backlight_device w.enumeration = some (some device)) :
    main_device w branch
      = branch device (get_sysattr_int w device "brightness")
          (get_sysattr_int w device "max_brightness")
          [Op.udev_new, Op.enumerate, Op.get_sysattr device "brightness",
            Op.get_sysattr device "max_brightness"] := by
  simp only [main_device, hnew, hdev, Bool.not_true, Bool.false_eq_true, if_false]

/-- C15 (amended): a `brightness` or `max_brightness` text that is present is
never a read error: `get_sysattr_int` returns the `int` value of what `strtol`
reads at its start (0 when there is no number), and the report run goes on
with the two values read: when the division does not trap it prints the
percentage computed from them and exits with success. -/
theorem main_get_no_read_error (w : World) (cmd : String) (device : Device)
    (b m : String) (percent : Int) (hnew : w.udev_new_ok = true)
    (hdev : get_backlight_device w.enumeration = some (some device))
    (hb : w.sysattr_value device "brightness" = some b)
    (hm : w.sysattr_value device "max_brightness" = some m)
    (hdiv : get_percent (wrapInt (strtol b.data)) (wrapInt (strtol m.data)) = some percent) :
    get_sysattr_int w device "brightness" = wrapInt (strtol b.data) ∧
      get_sysattr_int w device "max_brightness" = wrapInt (strtol m.data) ∧
      main w cmd []
        = { status := Exit.success, out := toString percent ++ "%\n", err := "",
            ops := [Op.udev_new, Op.enumerate, Op.get_sysattr device "brightness",
              Op.get_sysattr device "max_brightness"] } := by
  have h1 : get_sysattr_int w device "brightness" = wrapInt (strtol b.data) := by
    simp only [get_sysattr_int, hb]
  have h2 : get_sysattr_int w device "max_brightness" = wrapInt (strtol m.data) := by
    simp only [get_sysattr_int, hm]
  refine ⟨h1, h2, ?_⟩
  have hp : main_parse [] = Request.get := rfl
  simp only [main, hp, main_device_selected w device _ hnew hdev, h1, h2, main_get, hdiv]

/-- An instance of C15 (amended): the texts `12abc` and `200` are read as 12
and 200, and the report is `6%`. -/
theorem main_get_no_read_error_witness :
    get_sysattr_int (one_device_world (some "12abc") (some "200") true) 0 "brightness"
        = wrapInt (strtol "12abc".data) ∧
      get_sysattr_int (one_device_world (some "12abc") (some "200") true) 0 "max_brightness"
        = wrapInt (strtol "200".data) ∧
      main (one_device_world (some "12abc") (some "200") true) "kbacklight" []
        = { status := Exit.success, out := toString (6 : Int) ++ "%\n", err := "",
            ops := [Op.udev_new, Op.enumerate, Op.get_sysattr 0 "brightness",
              Op.get_sysattr 0 "max_brightness"] } :=
  main_get_no_read_error (one_device_world (some "12abc") (some "200") true) "kbacklight" 0
    "12abc" "200" 6 rfl (by decide) rfl rfl (by decide)

/-- C15 fails as stated: with the `brightness` text `abc` (not a number) and
`max_brightness` text `200`, the report run prints `0%` and exits with
success, and the run with argument `50` writes `100` and exits with
success. -/
theorem main_continues_after_bad_read :
    main (one_device_world (some "abc") (some "200") true) "kbacklight" []
        = { status := Exit.success, out := "0%\n", err := "",
            ops := [Op.udev_new, Op.enumerate, Op.get_sysattr 0 "brightness",
              Op.get_sysattr 0 "max_brightness"] } ∧
      main (one_device_world (some "abc") (some "200") true) "kbacklight" ["50"]
        = { status := Exit.success, out := "", err := "",
            ops := [Op.udev_new, Op.enumerate, Op.get_sysattr 0 "brightness",
              Op.get_sysattr 0 "max_brightness", Op.set_sysattr 0 "brightness" "100" true] } := by
  decide

/-- The tail of a mutating branch when the text of the new value and its NUL
fit `str`: the write is made with that text, and the run ends with the success
exit when the write is accepted and with the failure exit and its message when
the write is rejected. -/
theorem main_write_fits (w : World) (device : Device) (ops : List Op) (new_value : Int)
    (hfit : (sprintf_d new_value).length + 1 ≤ str_size) :
    set_sysattr_int w device "brightness" new_value
        = some (sprintf_d new_value,
            w.set_sysattr_value_ok device "brightness" (sprintf_d new_value)) ∧
      main_write w device ops new_value
        = { status :=
              if w.set_sysattr_value_ok device "brightness" (sprintf_d new_value) = true
              then Exit.success else Exit.failure,
            out := "",
            err :=
              if w.set_sysattr_value_ok device "brightness" (sprintf_d new_value) = true
              then "" else "Failed to set brightness.\n",
            ops := ops ++ [Op.set_sysattr device "brightness" (sprintf_d new_value)
              (w.set_sysattr_value_ok device "brightness" (sprintf_d new_value))] } := by
  have hset : set_sysattr_int w device "brightness" new_value
      = some (sprintf_d new_value,
          w.set_sysattr_value_ok device "brightness" (sprintf_d new_value)) := by
    unfold set_sysattr_int
    simp only
    rw [if_neg (by omega)]
  refine ⟨hset, ?_⟩
  unfold main_write
  rw [hset]
  cases w.set_sysattr_value_ok device "brightness" (sprintf_d new_value) <;> simp

/-- C16 (amended): in a run of add, subtract or set in which `udev_new`
succeeds, a device is selected and the text of the new value with its NUL fits
`str`, the brightness write is made with that text, `set_sysattr_int` reports
exactly the answer of the attribute write, and the run exits with failure if
and only if the write is rejected and with success if and only if it is
accepted. -/
theorem main_mutating_exit (w : World) (cmd : String) (args : List String)
    (device : Device) (new_value : Int) (hnew : w.udev_new_ok = true)
    (hdev : get_backlight_device w.enumeration = some (some device))
    (hmut : (∃ v, main_parse args = Request.add v ∧
        new_value = add_new_value (get_sysattr_int w device "brightness")
          (get_sysattr_int w device "max_brightness") v) ∨
      (∃ v, main_parse args = Request.subtract v ∧
        new_value = subtract_new_value (get_sysattr_int w device "brightness")
          (get_sysattr_int w device "max_brightness") v) ∨
      (∃ v, main_parse args = Request.set v ∧
        new_value = set_new_value (get_sysattr_int w device "max_brightness") v))
    (hfit : (sprintf_d new_value).length + 1 ≤ str_size) :
    (main w cmd args).ops
        = [Op.udev_new, Op.enumerate, Op.get_sysattr device "brightness",
            Op.get_sysattr device "max_brightness",
            Op.set_sysattr device "brightness" (sprintf_d new_value)
              (w.set_sysattr_value_ok device "brightness" (sprintf_d new_value))] ∧
      set_sysattr_int w device "brightness" new_value
        = some (sprintf_d new_value,
            w.set_sysattr_value_ok device "brightness" (sprintf_d new_value)) ∧
      ((main w cmd args).status = Exit.failure ↔
        w.set_sysattr_value_ok device "brightness" (sprintf_d new_value) = false) ∧
      ((main w cmd args).status = Exit.success ↔
        w.set_sysattr_value_ok device "brightness" (sprintf_d new_value) = true) := by
  have hrun : main w cmd args
      = main_write w device
          [Op.udev_new, Op.enumerate, Op.get_sysattr device "brightness",
            Op.get_sysattr device "max_brightness"] new_value := by
    rcases hmut with ⟨v, h, hv⟩ | ⟨v, h, hv⟩ | ⟨v, h, hv⟩ <;>
      simp only [main, h, main_device_selected w device _ hnew hdev, hv]
  obtain ⟨hset, hw⟩ := main_write_fits w device
    [Op.udev_new, Op.enumerate, Op.get_sysattr device "brightness",
      Op.get_sysattr device "max_brightness"] new_value hfit
  rw [hrun, hw]
  refine ⟨by simp, hset, ?_, ?_⟩ <;>
    cases w.set_sysattr_value_ok device "brightness" (sprintf_d new_value) <;> simp

/-- An instance of C16 (amended): the argument `+30` with brightness 50 of
200 writes `110`; the run exits with success when the write is accepted and
with failure when it is rejected. -/
theorem main_mutating_exit_witness :
    (main (one_device_world (some "50") (some "200") true) "kbacklight" ["+30"]).status
        = Exit.success ∧
      (main (one_device_world (some "50") (some "200") false) "kbacklight" ["+30"]).status
        = Exit.failure := by
  have hacc := main_mutating_exit (one_device_world (some "50") (some "200") true)
    "kbacklight" ["+30"] 0 110 rfl (by decide) (Or.inl ⟨30, by decide, by decide⟩)
    (by decide)
  have hrej := main_mutating_exit (one_device_world (some "50") (some "200") false)
    "kbacklight" ["+30"] 0 110 rfl (by decide) (Or.inl ⟨30, by decide, by decide⟩)
    (by decide)
  exact ⟨hacc.2.2.2.mpr rfl, hrej.2.2.1.mpr rfl⟩

/-- C16 fails as stated: with the argument `+30`, a run in which `udev_new`
fails and a run whose scan finds no device both exit with failure although no
brightness write was made, let alone rejected. -/
theorem main_failure_without_write :
    main { one_device_world (some "50") (some "200") true with udev_new_ok := false }
        "kbacklight" ["+30"]
      = { status := Exit.failure, out := "", err := "udev object creation failed.\n",
          ops := [Op.udev_new] } ∧
    main { one_device_world (some "50") (some "200") true with enumeration := typed_scan [] }
        "kbacklight" ["+30"]
      = { status := Exit.failure, out := "", err := "Failed to find backlight device.\n",
          ops := [Op.udev_new, Op.enumerate] } := by
  decide

/-! ## The selection rule of the loop -/

/-- C19: for every scan list with readable types the function returns the
last candidate, in scan order, of the highest tier present (and `NULL` for the
empty list); in each iteration the candidate replaces the running best unless
the best is in a strictly higher tier. -/
theorem get_backlight_device_eq_last_of_top_tier (l : List (String × Device)) :
    get_backlight_device (typed_scan l) = some (last_of_top_tier l) ∧
      (l ≠ [] → (last_of_top_tier l).isSome = true) ∧
      ∀ (p : Pref) (t : String) (d : Device),
        scan_step p { type := some t, device := d }
          = some (if tier p.pref_type ≤ tier t then { pref_device := some d, pref_type := t }
                  else p) := by
  have key : l ≠ [] → ∃ d, get_backlight_device (typed_scan l) = some (some d) ∧
      last_of_top_tier l = some d := by
    intro hne
    obtain ⟨pre, c, post, hl, hpre, hpost, hres⟩ := get_backlight_device_typed l hne
    have hc : c ∈ l := by rw [hl]; simp
    have htop : top_tier l = tier c.1 := by
      apply le_antisymm
      · apply top_tier_le
        intro x hx
        rw [hl] at hx
        rcases List.mem_append.mp hx with h | h
        · exact hpre x h
        · rcases List.mem_cons.mp h with rfl | h
          · exact le_rfl
          · exact (hpost x h).le
      · exact tier_le_top_tier l c hc
    refine ⟨c.2, hres, ?_⟩
    have hnone : List.find? (fun x => tier x.1 == top_tier l) post.reverse = none := by
      rw [List.find?_eq_none]
      intro x hx
      have := hpost x (List.mem_reverse.mp hx)
      simp only [beq_iff_eq]
      omega
    unfold last_of_top_tier
    conv_lhs => rw [hl]
    rw [List.reverse_append, List.reverse_cons, List.append_assoc, List.find?_append, ← hl,
      hnone, Option.none_or, List.singleton_append,
      List.find?_cons_of_pos _ (by simp only [beq_iff_eq]; exact htop.symm)]
    rfl
  refine ⟨?_, ?_, scan_step_typed⟩
  · by_cases hne : l = []
    · subst hne
      rfl
    · obtain ⟨d, h1, h2⟩ := key hne
      rw [h1, h2]
  · intro hne
    obtain ⟨d, _, h2⟩ := key hne
    rw [h2]
    rfl

/-- An instance of C19: in `[raw D1, platform D2, platform D3, raw D4]` the
last candidate of the highest tier present is `D3`. -/
theorem get_backlight_device_eq_last_of_top_tier_witness :
    get_backlight_device
        (typed_scan [("raw", 1), ("platform", 2), ("platform", 3), ("raw", 4)])
      = some (some 3) :=
  (get_backlight_device_eq_last_of_top_tier
    [("raw", 1), ("platform", 2), ("platform", 3), ("raw", 4)]).1.trans (by decide)

/-! ## Faults -/

/-- A scan never gets past an entry whose `type` is `NULL`. -/
theorem scan_loop_null_type (es : List Entry) (p : Pref)
    (h : ∃ e ∈ es, e.type = none) : scan_loop p es = none := by
  induction es generalizing p with
  | nil => simp at h
  | cons e es ih =>
    simp only [scan_loop]
    cases hs : scan_step p e with
    | none => rfl
    | some q =>
      simp only
      apply ih
      obtain ⟨x, hx, hxt⟩ := h
      rcases List.mem_cons.mp hx with rfl | hx
      · simp [scan_step, hxt] at hs
      · exact ⟨x, hx, hxt⟩

/-- C17 (the code at the failing input): on the scan lists `[D1 without type]`
and `[firmware D1, D2 without type]` the function hands `NULL` to `strcmp`: the
scan faults, no device is returned. -/
theorem get_backlight_device_null_type :
    get_backlight_device
        { new_ok := true, add_match_ok := true, scan_ok := true,
          entries := [{ type := none, device := 1 }] } = none ∧
      get_backlight_device
        { new_ok := true, add_match_ok := true, scan_ok := true,
          entries := [{ type := some "firmware", device := 1 },
            { type := none, device := 2 }] } = none := by
  decide

/-- C18 (the code at the failing input): with `max_brightness = 0` the report
run evaluates `100 * brightness / max_brightness` with the divisor 0 and
faults; the run with the argument `+5` writes 0 and exits with success. -/
theorem main_zero_max_brightness :
    get_percent 50 0 = none ∧
      main (one_device_world (some "50") (some "0") true) "kbacklight" []
        = { status := Exit.fault, out := "", err := "",
            ops := [Op.udev_new, Op.enumerate, Op.get_sysattr 0 "brightness",
              Op.get_sysattr 0 "max_brightness"] } ∧
      main (one_device_world (some "50") (some "0") true) "kbacklight" ["+5"]
        = { status := Exit.success, out := "", err := "",
            ops := [Op.udev_new, Op.enumerate, Op.get_sysattr 0 "brightness",
              Op.get_sysattr 0 "max_brightness", Op.set_sysattr 0 "brightness" "0" true] } := by
  decide

/-- C20 (the code at the failing input): with `max_brightness = 1000` the
argument `100` makes the set branch hand 1000 to `set_sysattr_int`; its text
`1000` and the terminating NUL need 5 bytes, more than the 4 bytes of `str`,
and the run faults before any write. -/
theorem set_sysattr_int_overflows_str :
    set_new_value 1000 100 = 1000 ∧
      (sprintf_d 1000).length + 1 = 5 ∧
      set_sysattr_int (one_device_world (some "50") (some "1000") true) 0 "brightness" 1000
        = none ∧
      main (one_device_world (some "50") (some "1000") true) "kbacklight" ["100"]
        = { status := Exit.fault, out := "", err := "",
            ops := [Op.udev_new, Op.enumerate, Op.get_sysattr 0 "brightness",
              Op.get_sysattr 0 "max_brightness"] } := by
  decide

end Kbacklight
